import Mathlib

/-!
Verification development for the icon-generation script
`src/icons/create-icons.py` of reidar80/AI-troll-sentiment-analysis.

The script is a linear sequence of 2D drawing calls against the Pillow
imaging library, guarded by a module-level import-availability check.
We shallowly embed it: the canvas is a structure recording its mode,
dimensions and the ordered list of drawing operations performed on it;
the imaging primitives (`ellipse`, `polygon`, `text`) become pure
functions that append operations, with the bounding-box validity check
Pillow performs made explicit; PNG encoding is a pure function of the
canvas; the filesystem is an association list from paths to encoded
files whose write unconditionally shadows prior entries; availability
of the Pillow import and of the DejaVuSans-Bold font file are Boolean
parameters of the run.  Python's `//` on the nonnegative quantities
involved coincides with `Nat` division, and every subtraction performed
has minuend at least the subtrahend, so `Nat` subtraction also agrees
with Python.
-/

/-- A single 2D drawing operation issued to the imaging library,
in the order the script issues them.  `ellipse` records the bounding
box `[x0, y0, x1, y1]` and fill color; `polygon` records its vertex
list and fill color; `text` records position, the string drawn, fill
color, font pixel size and anchor mode. -/
inductive DrawOp : Type where
  | ellipse (x0 y0 x1 y1 : Nat) (fill : String)
  | polygon (points : List (Nat × Nat)) (fill : String)
  | text (x y : Nat) (str : String) (fill : String) (fontSize : Nat) (anchor : String)
  deriving DecidableEq, Repr

/-- Whether a drawing operation is a glyph (text) rendering operation. -/
def DrawOp.isText : DrawOp → Bool
  | .text _ _ _ _ _ _ => true
  | _ => false

/-- The in-memory canvas: pixel mode, dimensions, and the ordered list
of drawing operations applied so far.  `Image.new('RGBA', (size, size),
(0, 0, 0, 0))` yields `⟨"RGBA", size, size, []⟩`. -/
structure Image where
  mode : String
  width : Nat
  height : Nat
  ops : List DrawOp
  deriving DecidableEq, Repr

/-- Pillow's `ImageDraw.ellipse`: the bounding box must satisfy
`x1 >= x0` and `y1 >= y0`, otherwise Pillow raises; on success the
operation is appended to the canvas. -/
def drawEllipse (img : Image) (x0 y0 x1 y1 : Nat) (fill : String) :
    Except String Image :=
  if x0 ≤ x1 ∧ y0 ≤ y1 then
    .ok { img with ops := img.ops ++ [DrawOp.ellipse x0 y0 x1 y1 fill] }
  else
    .error "ellipse: x1 must be greater than or equal to x0"

/-- Pillow's `ImageDraw.polygon`: requires at least two vertices; on
success the operation is appended to the canvas. -/
def drawPolygon (img : Image) (points : List (Nat × Nat)) (fill : String) :
    Except String Image :=
  if 2 ≤ points.length then
    .ok { img with ops := img.ops ++ [DrawOp.polygon points fill] }
  else
    .error "polygon: not enough coordinates"

/-- Pillow's `ImageDraw.text` with a loaded font: appends the glyph
operation to the canvas. -/
def drawText (img : Image) (x y : Nat) (str fill : String) (fontSize : Nat)
    (anchor : String) : Image :=
  { img with ops := img.ops ++ [DrawOp.text x y str fill fontSize anchor] }

/-- The PNG encoding of a canvas, as written to disk by `img.save`.
Two canvases encode to byte-identical PNG files exactly when these
records are equal: the encoder is a pure function of mode, dimensions
and pixel content, and the pixel content is determined by the drawing
operations performed. -/
structure PNGFile where
  width : Nat
  height : Nat
  hasAlpha : Bool
  ops : List DrawOp
  deriving DecidableEq, Repr

/-- Encode a canvas as a PNG file (`img.save(filename, 'PNG')`);
the alpha channel is present exactly when the mode is RGBA. -/
def pngEncode (img : Image) : PNGFile :=
  ⟨img.width, img.height, img.mode == "RGBA", img.ops⟩

/-- The filesystem fragment the script touches: an association list
from destination paths to encoded PNG files.  The most recent write to
a path shadows every earlier entry. -/
abbrev FS : Type := List (String × PNGFile)

/-- Read the file currently stored at a path, if any. -/
def fsGet (fs : FS) (path : String) : Option PNGFile :=
  (List.find? (fun e => e.1 == path) fs).map (fun e => e.2)

/-- Write a file at a path, unconditionally replacing any existing
file stored there. -/
def fsWrite (path : String) (file : PNGFile) (fs : FS) : FS :=
  (path, file) :: fs

/-- The `os.path.join(script_dir, name)` calls of the entry sequence. -/
def joinPath (dir name : String) : String :=
  dir ++ "/" ++ name

/-- The six shield vertices of `create_icon`, lines 31-38 of the
source: `shield_top = size // 4`, `shield_bottom = size * 3 // 4`,
`shield_left = size // 3`, `shield_right = size * 2 // 3`, and the
four side vertices inset vertically by `size // 10`. -/
def shield_points (size : Nat) : List (Nat × Nat) :=
  [(size / 2, size / 4),
   (size * 2 / 3, size / 4 + size / 10),
   (size * 2 / 3, size * 3 / 4 - size / 10),
   (size / 2, size * 3 / 4),
   (size / 3, size * 3 / 4 - size / 10),
   (size / 3, size / 4 + size / 10)]

/-- The body of `create_icon(size, filename)` (source lines 11-61),
parameterised additionally by whether the DejaVuSans-Bold font file can
be loaded (`fontAvailable`) and by the pre-existing filesystem state.
Returns the updated filesystem together with the console line printed,
or an error if an imaging call raised.  The `try/except` around the
glyph step means a missing font skips the glyph silently. -/
def create_icon (size : Nat) (filename : String) (fontAvailable : Bool)
    (fs : FS) : Except String (FS × String) := do
  let img : Image := ⟨"RGBA", size, size, []⟩
  let padding := size / 10
  let img ← drawEllipse img padding padding (size - padding) (size - padding) "#667eea"
  let img ← drawPolygon img (shield_points size) "#ffffff"
  let badge_size := size / 4
  let badge_pos := size * 3 / 4
  let img ← drawEllipse img (badge_pos - badge_size / 2) (badge_pos - badge_size / 2)
      (badge_pos + badge_size / 2) (badge_pos + badge_size / 2) "#fbbf24"
  let img :=
    if 48 ≤ size then
      if fontAvailable then
        drawText img badge_pos badge_pos "!" "#ffffff" (max (size / 4 / 2) 12) "mm"
      else
        img
    else
      img
  let fs := fsWrite filename (pngEncode img) fs
  .ok (fs, "Created " ++ filename)

/-- The drawing operations `create_icon` performs on a canvas of the
given size, as a pure function of the size and font availability. -/
def imageOps (size : Nat) (fontAvailable : Bool) : List DrawOp :=
  [DrawOp.ellipse (size / 10) (size / 10) (size - size / 10) (size - size / 10) "#667eea",
   DrawOp.polygon (shield_points size) "#ffffff",
   DrawOp.ellipse (size * 3 / 4 - size / 4 / 2) (size * 3 / 4 - size / 4 / 2)
     (size * 3 / 4 + size / 4 / 2) (size * 3 / 4 + size / 4 / 2) "#fbbf24"]
  ++ (if 48 ≤ size ∧ fontAvailable = true then
        [DrawOp.text (size * 3 / 4) (size * 3 / 4) "!" "#ffffff" (max (size / 4 / 2) 12) "mm"]
      else [])

/-- The PNG file `create_icon` writes for a given size and font
availability. -/
def writtenPNG (size : Nat) (fontAvailable : Bool) : PNGFile :=
  ⟨size, size, true, imageOps size fontAvailable⟩

/-- Exit code of a Python process that runs to completion without an
unhandled exception or an explicit `sys.exit`. -/
def successExitCode : Nat := 0

/-- Observable outcome of one process run: final filesystem, console
lines in order, process exit code, and the sequence of `create_icon`
invocations as (size, destination path) pairs. -/
structure RunResult where
  fs : FS
  console : List String
  exitCode : Nat
  renderCalls : List (Nat × String)
  deriving DecidableEq, Repr

/-- The module-level entry sequence (source lines 7-77): if the Pillow
module loads, render the three icons into the script's directory and
print the success lines; if the import raises `ImportError`, print the
remediation lines and fall off the end of the `except` block, so the
process exits with the success exit code either way.  An error value
models an unhandled (non-ImportError) exception. -/
def generationFlow (pillowAvailable fontAvailable : Bool) (scriptDir : String)
    (fs : FS) : Except String RunResult :=
  if pillowAvailable then do
    let (fs, m1) ← create_icon 16 (joinPath scriptDir "icon16.png") fontAvailable fs
    let (fs, m2) ← create_icon 48 (joinPath scriptDir "icon48.png") fontAvailable fs
    let (fs, m3) ← create_icon 128 (joinPath scriptDir "icon128.png") fontAvailable fs
    .ok ⟨fs,
         [m1, m2, m3,
          "\nAll icons created successfully!",
          "Icons are ready to use with the Chrome extension."],
         successExitCode,
         [(16, joinPath scriptDir "icon16.png"),
          (48, joinPath scriptDir "icon48.png"),
          (128, joinPath scriptDir "icon128.png")]⟩
  else
    .ok ⟨fs,
         ["Error: Pillow library not installed.",
          "Please install it with: pip install pillow",
          "\nAlternatively, use the generate-icons.html file in your browser to create icons manually."],
         successExitCode,
         []⟩

/-- Exit code of a run, when the run terminated without an unhandled
exception. -/
def exitCodeOf (r : Except String RunResult) : Option Nat :=
  match r with
  | .ok res => some res.exitCode
  | .error _ => none

theorem create_icon_eq (size : Nat) (filename : String) (fontAvailable : Bool)
    (fs : FS) :
    create_icon size filename fontAvailable fs =
      .ok (fsWrite filename (writtenPNG size fontAvailable) fs,
           "Created " ++ filename) := by
  have h1 : size / 10 ≤ size - size / 10 := by omega
  have h2 : size * 3 / 4 - size / 4 / 2 ≤ size * 3 / 4 + size / 4 / 2 := by omega
  have h3 : size * 3 / 4 ≤ size * 3 / 4 + size / 4 / 2 + size / 4 / 2 := by omega
  by_cases h48 : 48 ≤ size <;> by_cases hfa : fontAvailable = true <;>
    simp [create_icon, drawEllipse, drawPolygon, drawText, shield_points,
      writtenPNG, imageOps, pngEncode, fsWrite, bind, Except.bind, h1, h2, h3, h48, hfa]

theorem joinPath_ne (dir a b : String) (h : a ≠ b) :
    joinPath dir a ≠ joinPath dir b := by
  intro contra
  apply h
  have hd := congrArg String.data contra
  simp only [joinPath, String.data_append, List.append_assoc] at hd
  exact String.ext (List.append_cancel_left (List.append_cancel_left hd))

theorem fsGet_fsWrite_self (path : String) (file : PNGFile) (fs : FS) :
    fsGet (fsWrite path file fs) path = some file := by
  simp [fsGet, fsWrite]

theorem fsGet_fsWrite_ne (p q : String) (file : PNGFile) (fs : FS)
    (h : p ≠ q) : fsGet (fsWrite p file fs) q = fsGet fs q := by
  simp [fsGet, fsWrite, h]

theorem generationFlow_pillow_eq (fontAvailable : Bool) (dir : String)
    (fs : FS) :
    generationFlow true fontAvailable dir fs =
      .ok ⟨fsWrite (joinPath dir "icon128.png") (writtenPNG 128 fontAvailable)
             (fsWrite (joinPath dir "icon48.png") (writtenPNG 48 fontAvailable)
               (fsWrite (joinPath dir "icon16.png") (writtenPNG 16 fontAvailable) fs)),
           ["Created " ++ joinPath dir "icon16.png",
            "Created " ++ joinPath dir "icon48.png",
            "Created " ++ joinPath dir "icon128.png",
            "\nAll icons created successfully!",
            "Icons are ready to use with the Chrome extension."],
           successExitCode,
           [(16, joinPath dir "icon16.png"),
            (48, joinPath dir "icon48.png"),
            (128, joinPath dir "icon128.png")]⟩ := by
  simp [generationFlow, create_icon_eq, bind, Except.bind]

/-- Definition following the wording of claim C3 (not the source): six
shield vertices with the top apex at one third of `size` from the top,
the bottom apex at three quarters of `size`, the sides at one third and
two thirds of `size`, and the four side vertices offset inward
vertically by 10% of `size`. -/
def claimC3ShieldPoints (size : Nat) : List (Nat × Nat) :=
  [(size / 2, size / 3),
   (2 * size / 3, size / 3 + size / 10),
   (2 * size / 3, 3 * size / 4 - size / 10),
   (size / 2, 3 * size / 4),
   (size / 3, 3 * size / 4 - size / 10),
   (size / 3, size / 3 + size / 10)]

/-- C1, counterexample: with the imaging capability absent at process
start (and any font availability, script directory, initial
filesystem), the run terminates with exit code equal to the success
exit code — the `except ImportError` block only prints and falls off
the end, so the claimed failure exit status does not occur.  Shown at
the concrete run `generationFlow false true "." []`. -/
theorem claim_C1_counterexample :
    exitCodeOf (generationFlow false true "." []) = some successExitCode := by
  rfl

/-- C1, amended: if the imaging capability is unavailable at process
start, no render is invoked and the remediation text is printed, but
the process nevertheless terminates with the success exit code 0 — the
exit code does not reflect that the imaging capability was absent. -/
theorem claim_C1_amended (fontAvailable : Bool) (dir : String) (fs : FS)
    (r : RunResult) (h : generationFlow false fontAvailable dir fs = .ok r) :
    r.renderCalls = [] ∧
    r.console = ["Error: Pillow library not installed.",
                 "Please install it with: pip install pillow",
                 "\nAlternatively, use the generate-icons.html file in your browser to create icons manually."] ∧
    r.exitCode = successExitCode := by
  simp only [generationFlow, if_neg (by simp : ¬ false = true)] at h
  cases h
  exact ⟨rfl, rfl, rfl⟩

/-- C1, amended, witness at the concrete run with font available,
script directory "." and empty initial filesystem. -/
theorem claim_C1_amended_witness :
    (⟨[], ["Error: Pillow library not installed.",
           "Please install it with: pip install pillow",
           "\nAlternatively, use the generate-icons.html file in your browser to create icons manually."],
      successExitCode, []⟩ : RunResult).renderCalls = [] ∧
    (⟨[], ["Error: Pillow library not installed.",
           "Please install it with: pip install pillow",
           "\nAlternatively, use the generate-icons.html file in your browser to create icons manually."],
      successExitCode, []⟩ : RunResult).console =
        ["Error: Pillow library not installed.",
         "Please install it with: pip install pillow",
         "\nAlternatively, use the generate-icons.html file in your browser to create icons manually."] ∧
    (⟨[], ["Error: Pillow library not installed.",
           "Please install it with: pip install pillow",
           "\nAlternatively, use the generate-icons.html file in your browser to create icons manually."],
      successExitCode, []⟩ : RunResult).exitCode = successExitCode :=
  claim_C1_amended true "." [] _ rfl

/-- C2: with the imaging capability unavailable at process start, the
generation flow terminates normally (no unhandled fault), leaves the
filesystem exactly as it was (zero output files written), prints the
remediation lines, and attempts no render. -/
theorem claim_C2 (fontAvailable : Bool) (dir : String) (fs : FS) :
    generationFlow false fontAvailable dir fs =
      .ok ⟨fs,
           ["Error: Pillow library not installed.",
            "Please install it with: pip install pillow",
            "\nAlternatively, use the generate-icons.html file in your browser to create icons manually."],
           successExitCode, []⟩ := by
  simp [generationFlow]

/-- C3, counterexample: at size 48 the shield polygon `render` draws is
not the polygon described by the claim — the code places the top apex
at `size // 4` (y = 12 at size 48), not at one third of `size`
(y = 16). -/
theorem claim_C3_counterexample :
    (writtenPNG 48 true).ops[1]? ≠
      some (DrawOp.polygon (claimC3ShieldPoints 48) "#ffffff") := by
  decide

/-- C3, amended: for every size, the second drawing operation of the
render is the shield polygon, filled solid white, whose six vertices
are, as fractions of `size`: the top apex at one QUARTER of `size` from
the top (not one third), the bottom apex at three quarters of `size`,
the left/right sides at one third and two thirds of `size`, with the
four upper/lower side vertices offset inward vertically by 10% of
`size` (all divisions truncating); and this is the polygon in the file
`create_icon` writes. -/
theorem claim_C3_amended (size : Nat) (filename : String)
    (fontAvailable : Bool) (fs : FS) (out : FS) (msg : String)
    (h : create_icon size filename fontAvailable fs = .ok (out, msg)) :
    fsGet out filename = some (writtenPNG size fontAvailable) ∧
    (writtenPNG size fontAvailable).ops[1]? =
      some (DrawOp.polygon
        [(size / 2, size / 4),
         (2 * size / 3, size / 4 + size / 10),
         (2 * size / 3, 3 * size / 4 - size / 10),
         (size / 2, 3 * size / 4),
         (size / 3, 3 * size / 4 - size / 10),
         (size / 3, size / 4 + size / 10)] "#ffffff") := by
  rw [create_icon_eq] at h
  injection h with h
  injection h with h1 h2
  constructor
  · rw [← h1]
    exact fsGet_fsWrite_self filename (writtenPNG size fontAvailable) fs
  · have e2 : 2 * size = size * 2 := by ring
    have e3 : 3 * size = size * 3 := by ring
    simp [writtenPNG, imageOps, shield_points, e2, e3]

/-- C3, amended, witness at size 48 with font available and empty
initial filesystem. -/
theorem claim_C3_amended_witness :
    fsGet (fsWrite "icon48.png" (writtenPNG 48 true) []) "icon48.png" =
      some (writtenPNG 48 true) ∧
    (writtenPNG 48 true).ops[1]? =
      some (DrawOp.polygon
        [(48 / 2, 48 / 4),
         (2 * 48 / 3, 48 / 4 + 48 / 10),
         (2 * 48 / 3, 3 * 48 / 4 - 48 / 10),
         (48 / 2, 3 * 48 / 4),
         (48 / 3, 3 * 48 / 4 - 48 / 10),
         (48 / 3, 48 / 4 + 48 / 10)] "#ffffff") :=
  claim_C3_amended 48 "icon48.png" true [] _ _ (create_icon_eq 48 "icon48.png" true [])

/-- C4: for every size, the third drawing operation of the render — so
drawn after (layered on top of) the shield polygon, which is the second
— is a filled circle of the fixed warning color `#fbbf24` whose
bounding box is centered at `(3*size/4, 3*size/4)` with radius
`size/8` (truncating integer arithmetic), and this is the badge in the
file `create_icon` writes. -/
theorem claim_C4 (size : Nat) (filename : String) (fontAvailable : Bool)
    (fs : FS) (out : FS) (msg : String)
    (h : create_icon size filename fontAvailable fs = .ok (out, msg)) :
    fsGet out filename = some (writtenPNG size fontAvailable) ∧
    (writtenPNG size fontAvailable).ops[1]? =
      some (DrawOp.polygon (shield_points size) "#ffffff") ∧
    (writtenPNG size fontAvailable).ops[2]? =
      some (DrawOp.ellipse (3 * size / 4 - size / 8) (3 * size / 4 - size / 8)
        (3 * size / 4 + size / 8) (3 * size / 4 + size / 8) "#fbbf24") := by
  rw [create_icon_eq] at h
  injection h with h
  injection h with h1 h2
  refine ⟨?_, ?_, ?_⟩
  · rw [← h1]
    exact fsGet_fsWrite_self filename (writtenPNG size fontAvailable) fs
  · simp [writtenPNG, imageOps]
  · have e3 : 3 * size = size * 3 := by ring
    have e8 : size / 4 / 2 = size / 8 := by omega
    simp [writtenPNG, imageOps, e3, e8]

/-- C4, witness at size 128 with font available and empty initial
filesystem. -/
theorem claim_C4_witness :
    fsGet (fsWrite "icon128.png" (writtenPNG 128 true) []) "icon128.png" =
      some (writtenPNG 128 true) ∧
    (writtenPNG 128 true).ops[1]? =
      some (DrawOp.polygon (shield_points 128) "#ffffff") ∧
    (writtenPNG 128 true).ops[2]? =
      some (DrawOp.ellipse (3 * 128 / 4 - 128 / 8) (3 * 128 / 4 - 128 / 8)
        (3 * 128 / 4 + 128 / 8) (3 * 128 / 4 + 128 / 8) "#fbbf24") :=
  claim_C4 128 "icon128.png" true [] _ _ (create_icon_eq 128 "icon128.png" true [])

/-- C5: the rendered file contains a glyph (text) drawing operation
exactly when `48 ≤ size` and the font was available — the gate on the
glyph step is solely `size >= 48`; and for every size below 48 (in
particular 16) the entire result of `create_icon` is identical whether
or not the font resource exists (noninterference of font availability
below size 48). -/
theorem claim_C5 (size : Nat) (filename : String) (fontAvailable : Bool)
    (fs : FS) :
    ((writtenPNG size fontAvailable).ops.any DrawOp.isText =
      (decide (48 ≤ size) && fontAvailable)) ∧
    (size < 48 → ∀ fa1 fa2 : Bool,
      create_icon size filename fa1 fs = create_icon size filename fa2 fs) := by
  constructor
  · by_cases h48 : 48 ≤ size
    · cases fontAvailable <;>
        simp [writtenPNG, imageOps, DrawOp.isText, h48]
    · cases fontAvailable <;>
        simp [writtenPNG, imageOps, DrawOp.isText, h48]
  · intro hlt fa1 fa2
    have h48 : ¬ 48 ≤ size := by omega
    rw [create_icon_eq, create_icon_eq]
    simp [writtenPNG, imageOps, h48]

/-- C5, witness: at size 16 the render contains no glyph operation and
the output is identical with and without the font resource. -/
theorem claim_C5_witness :
    16 < 48 ∧
    create_icon 16 "icon16.png" true [] = create_icon 16 "icon16.png" false [] :=
  ⟨by decide, (claim_C5 16 "icon16.png" true []).2 (by decide) true false⟩

/-- C6: rendering is deterministic — two runs of `create_icon` with the
same size and the same font availability (whatever the prior filesystem
states) store byte-identical PNG files at the destination path, namely
the encoding determined purely by size and font availability. -/
theorem claim_C6 (size : Nat) (filename : String) (fontAvailable : Bool)
    (fs1 fs2 out1 out2 : FS) (msg1 msg2 : String)
    (h1 : create_icon size filename fontAvailable fs1 = .ok (out1, msg1))
    (h2 : create_icon size filename fontAvailable fs2 = .ok (out2, msg2)) :
    fsGet out1 filename = fsGet out2 filename ∧
    fsGet out1 filename = some (writtenPNG size fontAvailable) := by
  rw [create_icon_eq] at h1 h2
  injection h1 with h1
  injection h1 with h1a h1b
  injection h2 with h2
  injection h2 with h2a h2b
  rw [← h1a, ← h2a]
  rw [fsGet_fsWrite_self, fsGet_fsWrite_self]
  exact ⟨rfl, rfl⟩

/-- C6, witness: two renders at size 48 with font available, one onto
an empty filesystem and one onto a filesystem already holding a file at
the destination, store the same PNG. -/
theorem claim_C6_witness :
    fsGet (fsWrite "icon48.png" (writtenPNG 48 true) []) "icon48.png" =
      fsGet (fsWrite "icon48.png" (writtenPNG 48 true)
        [("icon48.png", writtenPNG 16 false)]) "icon48.png" ∧
    fsGet (fsWrite "icon48.png" (writtenPNG 48 true) []) "icon48.png" =
      some (writtenPNG 48 true) :=
  claim_C6 48 "icon48.png" true [] [("icon48.png", writtenPNG 16 false)] _ _ _ _
    (create_icon_eq 48 "icon48.png" true [])
    (create_icon_eq 48 "icon48.png" true [("icon48.png", writtenPNG 16 false)])

/-- C7: with the font resource missing, a render at any size at least
48 still succeeds: the glyph step is skipped silently (no glyph
operation in the output, no error raised), and a PNG file of the full
size with an alpha channel — the badge without the glyph — is still
written to the destination. -/
theorem claim_C7 (size : Nat) (filename : String) (fs : FS)
    (h : 48 ≤ size) :
    create_icon size filename false fs =
      .ok (fsWrite filename (writtenPNG size false) fs, "Created " ++ filename) ∧
    (writtenPNG size false).ops.any DrawOp.isText = false ∧
    (writtenPNG size false).ops[2]? =
      some (DrawOp.ellipse (size * 3 / 4 - size / 4 / 2) (size * 3 / 4 - size / 4 / 2)
        (size * 3 / 4 + size / 4 / 2) (size * 3 / 4 + size / 4 / 2) "#fbbf24") ∧
    (writtenPNG size false).width = size ∧
    (writtenPNG size false).height = size ∧
    (writtenPNG size false).hasAlpha = true := by
  refine ⟨create_icon_eq size filename false fs, ?_, ?_, rfl, rfl, rfl⟩
  · simp [writtenPNG, imageOps, DrawOp.isText]
  · simp [writtenPNG, imageOps]

/-- C7, witness at the concrete size 128 of the spec's example. -/
theorem claim_C7_witness :
    create_icon 128 "icon128.png" false [] =
      .ok (fsWrite "icon128.png" (writtenPNG 128 false) [], "Created " ++ "icon128.png") ∧
    (writtenPNG 128 false).ops.any DrawOp.isText = false ∧
    (writtenPNG 128 false).ops[2]? =
      some (DrawOp.ellipse (128 * 3 / 4 - 128 / 4 / 2) (128 * 3 / 4 - 128 / 4 / 2)
        (128 * 3 / 4 + 128 / 4 / 2) (128 * 3 / 4 + 128 / 4 / 2) "#fbbf24") ∧
    (writtenPNG 128 false).width = 128 ∧
    (writtenPNG 128 false).height = 128 ∧
    (writtenPNG 128 false).hasAlpha = true :=
  claim_C7 128 "icon128.png" [] (by decide)

/-- C8: with the imaging capability present, the entry sequence invokes
the renderer exactly three times, with sizes 16, 48, 128 in that order,
writing to `icon16.png`, `icon48.png`, `icon128.png` in the script's
directory; for each size s the file then stored at its path is the PNG
of dimensions exactly s by s with an alpha channel. -/
theorem claim_C8 (fontAvailable : Bool) (dir : String) (fs : FS)
    (r : RunResult) (h : generationFlow true fontAvailable dir fs = .ok r) :
    r.renderCalls = [(16, joinPath dir "icon16.png"),
                     (48, joinPath dir "icon48.png"),
                     (128, joinPath dir "icon128.png")] ∧
    fsGet r.fs (joinPath dir "icon16.png") = some (writtenPNG 16 fontAvailable) ∧
    fsGet r.fs (joinPath dir "icon48.png") = some (writtenPNG 48 fontAvailable) ∧
    fsGet r.fs (joinPath dir "icon128.png") = some (writtenPNG 128 fontAvailable) ∧
    ((writtenPNG 16 fontAvailable).width = 16 ∧
     (writtenPNG 16 fontAvailable).height = 16 ∧
     (writtenPNG 16 fontAvailable).hasAlpha = true) ∧
    ((writtenPNG 48 fontAvailable).width = 48 ∧
     (writtenPNG 48 fontAvailable).height = 48 ∧
     (writtenPNG 48 fontAvailable).hasAlpha = true) ∧
    ((writtenPNG 128 fontAvailable).width = 128 ∧
     (writtenPNG 128 fontAvailable).height = 128 ∧
     (writtenPNG 128 fontAvailable).hasAlpha = true) := by
  rw [generationFlow_pillow_eq] at h
  injection h with h
  subst h
  have ne16 : joinPath dir "icon128.png" ≠ joinPath dir "icon16.png" :=
    joinPath_ne dir "icon128.png" "icon16.png" (by decide)
  have ne48 : joinPath dir "icon128.png" ≠ joinPath dir "icon48.png" :=
    joinPath_ne dir "icon128.png" "icon48.png" (by decide)
  have ne16b : joinPath dir "icon48.png" ≠ joinPath dir "icon16.png" :=
    joinPath_ne dir "icon48.png" "icon16.png" (by decide)
  refine ⟨rfl, ?_, ?_, ?_, ⟨rfl, rfl, rfl⟩, ⟨rfl, rfl, rfl⟩, ⟨rfl, rfl, rfl⟩⟩
  · rw [fsGet_fsWrite_ne _ _ _ _ ne16, fsGet_fsWrite_ne _ _ _ _ ne16b,
      fsGet_fsWrite_self]
  · rw [fsGet_fsWrite_ne _ _ _ _ ne48, fsGet_fsWrite_self]
  · rw [fsGet_fsWrite_self]

/-- C8, witness at the concrete run with font available, script
directory "src/icons" and empty initial filesystem. -/
theorem claim_C8_witness :
    (⟨fsWrite (joinPath "src/icons" "icon128.png") (writtenPNG 128 true)
        (fsWrite (joinPath "src/icons" "icon48.png") (writtenPNG 48 true)
          (fsWrite (joinPath "src/icons" "icon16.png") (writtenPNG 16 true) [])),
      ["Created " ++ joinPath "src/icons" "icon16.png",
       "Created " ++ joinPath "src/icons" "icon48.png",
       "Created " ++ joinPath "src/icons" "icon128.png",
       "\nAll icons created successfully!",
       "Icons are ready to use with the Chrome extension."],
      successExitCode,
      [(16, joinPath "src/icons" "icon16.png"),
       (48, joinPath "src/icons" "icon48.png"),
       (128, joinPath "src/icons" "icon128.png")]⟩ : RunResult).renderCalls =
      [(16, joinPath "src/icons" "icon16.png"),
       (48, joinPath "src/icons" "icon48.png"),
       (128, joinPath "src/icons" "icon128.png")] ∧
    fsGet (fsWrite (joinPath "src/icons" "icon128.png") (writtenPNG 128 true)
        (fsWrite (joinPath "src/icons" "icon48.png") (writtenPNG 48 true)
          (fsWrite (joinPath "src/icons" "icon16.png") (writtenPNG 16 true) [])))
      (joinPath "src/icons" "icon16.png") = some (writtenPNG 16 true) ∧
    fsGet (fsWrite (joinPath "src/icons" "icon128.png") (writtenPNG 128 true)
        (fsWrite (joinPath "src/icons" "icon48.png") (writtenPNG 48 true)
          (fsWrite (joinPath "src/icons" "icon16.png") (writtenPNG 16 true) [])))
      (joinPath "src/icons" "icon48.png") = some (writtenPNG 48 true) ∧
    fsGet (fsWrite (joinPath "src/icons" "icon128.png") (writtenPNG 128 true)
        (fsWrite (joinPath "src/icons" "icon48.png") (writtenPNG 48 true)
          (fsWrite (joinPath "src/icons" "icon16.png") (writtenPNG 16 true) [])))
      (joinPath "src/icons" "icon128.png") = some (writtenPNG 128 true) ∧
    ((writtenPNG 16 true).width = 16 ∧
     (writtenPNG 16 true).height = 16 ∧
     (writtenPNG 16 true).hasAlpha = true) ∧
    ((writtenPNG 48 true).width = 48 ∧
     (writtenPNG 48 true).height = 48 ∧
     (writtenPNG 48 true).hasAlpha = true) ∧
    ((writtenPNG 128 true).width = 128 ∧
     (writtenPNG 128 true).height = 128 ∧
     (writtenPNG 128 true).hasAlpha = true) :=
  claim_C8 true "src/icons" [] _ (generationFlow_pillow_eq true "src/icons" [])

/-- C9: if a file already exists at the destination path, re-running
the render for that size succeeds anyway (it does not fail because of
the existing file) and the path afterwards holds the freshly rendered
PNG — the prior file is unconditionally replaced. -/
theorem claim_C9 (size : Nat) (path : String) (fontAvailable : Bool)
    (fs : FS) (old : PNGFile) (h : fsGet fs path = some old) :
    create_icon size path fontAvailable fs =
      .ok (fsWrite path (writtenPNG size fontAvailable) fs, "Created " ++ path) ∧
    fsGet (fsWrite path (writtenPNG size fontAvailable) fs) path =
      some (writtenPNG size fontAvailable) :=
  ⟨create_icon_eq size path fontAvailable fs,
   fsGet_fsWrite_self path (writtenPNG size fontAvailable) fs⟩

/-- C9, witness: re-rendering icon16.png over a filesystem that already
holds a file at that path succeeds and replaces it. -/
theorem claim_C9_witness :
    fsGet [("icon16.png", writtenPNG 16 false)] "icon16.png" =
      some (writtenPNG 16 false) ∧
    create_icon 16 "icon16.png" true [("icon16.png", writtenPNG 16 false)] =
      .ok (fsWrite "icon16.png" (writtenPNG 16 true)
             [("icon16.png", writtenPNG 16 false)], "Created " ++ "icon16.png") ∧
    fsGet (fsWrite "icon16.png" (writtenPNG 16 true)
      [("icon16.png", writtenPNG 16 false)]) "icon16.png" =
      some (writtenPNG 16 true) :=
  ⟨by decide,
   (claim_C9 16 "icon16.png" true [("icon16.png", writtenPNG 16 false)]
     (writtenPNG 16 false) (by decide)).1,
   (claim_C9 16 "icon16.png" true [("icon16.png", writtenPNG 16 false)]
     (writtenPNG 16 false) (by decide)).2⟩

/-- C10: for every positive size — not only the three the script uses —
given the imaging capability and a writable destination, the render
completes without raising any error: no input validation rejects small
sizes, and the degenerate geometry arising below size 10 is accepted
(every Pillow bounding-box precondition still holds). -/
theorem claim_C10 (size : Nat) (filename : String) (fontAvailable : Bool)
    (fs : FS) (h : 0 < size) :
    ∃ result, create_icon size filename fontAvailable fs = .ok result :=
  ⟨(fsWrite filename (writtenPNG size fontAvailable) fs, "Created " ++ filename),
   create_icon_eq size filename fontAvailable fs⟩

/-- C10, witness at the degenerate size 3, far below the smallest size
the script uses. -/
theorem claim_C10_witness :
    0 < 3 ∧
    ∃ result, create_icon 3 "icon3.png" true [] = .ok result :=
  ⟨by decide, claim_C10 3 "icon3.png" true [] (by decide)⟩
